import Mathlib

/-!
Shallow embedding of the `ecomm-prod-assistant` repository, covering:

* the agentic workflow graph of
  `prod_assistant/workflow/agentic_workflow_with_mcp_websearch.py`
  (nodes `_ai_assistant`, `_vector_retriever`, `_web_search`, `_rewrite`,
  `_generate`, the routing predicate `_grade_documents`, and the edge table
  of `_build_workflow`);
* the MCP tool server `prod_assistant/mcp_servers/product_search_server.py`
  (`format_docs`, `get_product_info`, `web_search`);
* the MCP client fallback logic of `prod_assistant/mcp_servers/client.py`;
* the ETL layer (`_load_csv` / `transform_data` of
  `prod_assistant/etl/data_ingestion.py`, `save_to_csv` of
  `prod_assistant/etl/data_scrapper.py`);
* the retriever configuration lookup of
  `prod_assistant/retriever/retrieval.py` (`load_retriever`);
* the evaluation wrappers of `prod_assistant/evaluation/ragas_eval.py`.

External collaborators (LLM calls, the vector store, the DuckDuckGo search,
the MCP transport, the CSV byte-level codec) are modelled as explicit
oracle parameters; every Python string operation used by the code
(`.lower()`, `.strip()`, the `in` substring test) is re-implemented by
structural recursion on the character list of the string so that all
definitions evaluate inside the kernel.
-/

/- ## Python string primitives -/

/-- Python `str.lower()` (ASCII case folding, which is all the code relies on). -/
def pyLower (s : String) : String := ⟨s.data.map Char.toLower⟩

/-- Auxiliary for `pyStrip`: remove leading and trailing whitespace characters. -/
def stripChars (l : List Char) : List Char :=
  ((l.dropWhile Char.isWhitespace).reverse.dropWhile Char.isWhitespace).reverse

/-- Python `str.strip()` with no argument: drop whitespace from both ends. -/
def pyStrip (s : String) : String := ⟨stripChars s.data⟩

/-- Auxiliary for `py_in`: does the second character list start with the first one. -/
def startsWithChars : List Char → List Char → Bool
  | [], _ => true
  | _ :: _, [] => false
  | p :: ps, c :: cs => p == c && startsWithChars ps cs

/-- Auxiliary for `py_in`: substring test on character lists. -/
def hasSubstringChars (pat : List Char) : List Char → Bool
  | [] => pat.isEmpty
  | c :: cs => startsWithChars pat (c :: cs) || hasSubstringChars pat cs

/-- Python `pat in s` on strings: substring containment. -/
def py_in (pat s : String) : Bool := hasSubstringChars pat.data s.data

/- ## Conversation state (workflow `AgentState`)

`AgentState` is a `TypedDict` holding `messages : Annotated[Sequence[BaseMessage], add_messages]`;
the `add_messages` reducer appends the single-element message list returned by
each node to the existing sequence. A message is reduced to its `content`
string, the only field the workflow reads. -/

/-- One conversation message; only the `content` field is ever inspected. -/
structure Message where
  content : String
deriving DecidableEq

/-- The `messages` field of `AgentState`: an ordered message sequence. -/
abbrev Messages := List Message

/-- Content of `messages[-1]` (nodes are only ever run on non-empty state;
the default is never exercised on reachable states). -/
def lastContent (s : Messages) : String := ((s.getLast?).map Message.content).getD ""

/-- Content of `messages[0]`. -/
def firstContent (s : Messages) : String := ((s.head?).map Message.content).getD ""

/- ## External capabilities injected into the workflow -/

/-- Oracle bundling every external capability the workflow consumes: the LLM
chains built in each node and the two MCP tools. Each is a pure function of
the strings the code feeds it. -/
structure Oracle where
  /-- LLM answer of the direct-answer chain in `_ai_assistant`, fed the question. -/
  assistantAnswer : String → String
  /-- LLM output of the yes/no grading chain in `_grade_documents`, fed question and docs. -/
  gradeAnswer : String → String → String
  /-- LLM output of the rewriting chain in `_rewrite`, fed the question. -/
  rewriteAnswer : String → String
  /-- LLM output of the answering chain in `_generate`, fed context and question. -/
  generateAnswer : String → String → String
  /-- Result string of the MCP tool `get_product_info`, fed the query. -/
  retrieverTool : String → String
  /-- Result string of the MCP tool `web_search`, fed the query. -/
  webTool : String → String

/- ## Workflow nodes

Each node of `_build_workflow` returns a one-element message list which the
`add_messages` reducer appends to the state; here each node is the message it
appends. -/

/-- Domain keywords tested by `_ai_assistant`. -/
def domainKeywords : List String := ["price", "review", "product"]

/-- Keyword test of `_ai_assistant`:
`any(word in last_message.lower() for word in ["price", "review", "product"])`. -/
def hasDomainKeyword (q : String) : Bool :=
  domainKeywords.any fun w => py_in w (pyLower q)

/-- Message appended by `_ai_assistant`: the literal `TOOL: retriever` sentinel
when the lowercased last message contains a domain keyword, else the direct
LLM answer to the question. -/
def ai_assistant (o : Oracle) (s : Messages) : Message :=
  let last_message := lastContent s
  if hasDomainKeyword last_message then ⟨"TOOL: retriever"⟩
  else ⟨o.assistantAnswer last_message⟩

/-- Message appended by `_vector_retriever`: the `get_product_info` tool result,
or `No data` when the tool returns a falsy (empty) string. -/
def vector_retriever (o : Oracle) (s : Messages) : Message :=
  let query := lastContent s
  let result := o.retrieverTool query
  ⟨if result = "" then "No data" else result⟩

/-- Message appended by `_web_search`: the `web_search` tool result, or
`No data from web` when the tool returns a falsy (empty) string. -/
def web_search_node (o : Oracle) (s : Messages) : Message :=
  let query := lastContent s
  let result := o.webTool query
  ⟨if result = "" then "No data from web" else result⟩

/-- Message appended by `_rewrite`: the stripped LLM rewrite of the original
question (`messages[0]`). -/
def rewrite_node (o : Oracle) (s : Messages) : Message :=
  ⟨pyStrip (o.rewriteAnswer (firstContent s))⟩

/-- Message appended by `_generate`: the LLM answer given the latest context
(`messages[-1]`) and the original question (`messages[0]`). -/
def generate_node (o : Oracle) (s : Messages) : Message :=
  ⟨o.generateAnswer (lastContent s) (firstContent s)⟩

/-- Routing predicate `_grade_documents`: grade the last message against the
first one and return `generator` exactly when the LLM output contains `yes`
case-insensitively, else `rewriter`. It returns a label only and leaves the
message sequence untouched. -/
def grade_documents (o : Oracle) (s : Messages) : String :=
  let question := firstContent s
  let docs := lastContent s
  let score := o.gradeAnswer question docs
  if py_in "yes" (pyLower score) then "generator" else "rewriter"

/- ## Workflow graph (`_build_workflow`) -/

/-- Graph nodes registered by `_build_workflow`. -/
inductive Node
  | assistant
  | retriever
  | generator
  | rewriter
  | webSearch
deriving DecidableEq

/-- Message appended by the given node. -/
def nodeMsg (o : Oracle) : Node → Messages → Message
  | .assistant, s => ai_assistant o s
  | .retriever, s => vector_retriever o s
  | .generator, s => generate_node o s
  | .rewriter, s => rewrite_node o s
  | .webSearch, s => web_search_node o s

/-- Execution of one node under the `add_messages` reducer: the state grows by
exactly the one message the node returns. -/
def execNode (o : Oracle) (n : Node) (s : Messages) : Messages :=
  s ++ [nodeMsg o n s]

/-- Edge table of `_build_workflow`, evaluated on the state that already
contains the message of the node just executed; `none` is `END`. -/
def nextNode (o : Oracle) : Node → Messages → Option Node
  | .assistant, s => if py_in "TOOL" (lastContent s) then some .retriever else none
  | .retriever, s => if grade_documents o s = "generator" then some .generator else some .rewriter
  | .generator, _ => none
  | .rewriter, _ => some .webSearch
  | .webSearch, _ => some .generator

/-- Fuel-indexed run of the graph from a node, recording each executed node
with the message it appended. -/
def runFrom (o : Oracle) : Nat → Option Node → Messages → List (Node × Message)
  | 0, _, _ => []
  | _ + 1, none, _ => []
  | fuel + 1, some n, s =>
    let m := nodeMsg o n s
    let s' := s ++ [m]
    (n, m) :: runFrom o fuel (nextNode o n s') s'

/-- Snapshot sequence of message states along a run, starting at the initial state. -/
def statesFrom (o : Oracle) : Nat → Option Node → Messages → List Messages
  | 0, _, s => [s]
  | _ + 1, none, s => [s]
  | fuel + 1, some n, s => s :: statesFrom o fuel (nextNode o n (execNode o n s)) (execNode o n s)

/-- Full run of `run(query)`: start at `Assistant` on the single-message state
`[query]`. Fuel `5` is shown sufficient in `runFrom_fuel_independent`. -/
def runTrace (o : Oracle) (query : String) : List (Node × Message) :=
  runFrom o 5 (some .assistant) [⟨query⟩]

/-- Nodes visited by a run, in order. -/
def visited (o : Oracle) (query : String) : List Node :=
  (runTrace o query).map Prod.fst

/-- Message sequence at the end of a run. -/
def finalMessages (o : Oracle) (query : String) : Messages :=
  ⟨query⟩ :: (runTrace o query).map Prod.snd

/-- State snapshots of a run, including the initial state. -/
def runStates (o : Oracle) (query : String) : List Messages :=
  statesFrom o 5 (some .assistant) [⟨query⟩]

/-- Nodes whose body invokes an MCP tool. -/
def invokesTool : Node → Bool
  | .retriever => true
  | .webSearch => true
  | _ => false

/-- Number of MCP tool invocations performed by a run. -/
def toolCalls (o : Oracle) (query : String) : Nat :=
  (visited o query).countP invokesTool

/-- Rank function on nodes: every edge of the graph strictly decreases it. -/
def nodeRank : Node → Nat
  | .assistant => 5
  | .retriever => 4
  | .rewriter => 3
  | .webSearch => 2
  | .generator => 1

/-- State after `Assistant` has run on the initial one-message state. -/
def assistantState (o : Oracle) (q : String) : Messages :=
  execNode o .assistant [⟨q⟩]

/-- State after `Retriever` has run (on the tool-routing path). -/
def retrieverState (o : Oracle) (q : String) : Messages :=
  execNode o .retriever (assistantState o q)

/-- State after `Rewriter` has run (on the not-relevant path). -/
def rewriterState (o : Oracle) (q : String) : Messages :=
  execNode o .rewriter (retrieverState o q)

/-- State after `WebSearch` has run (on the not-relevant path). -/
def webSearchState (o : Oracle) (q : String) : Messages :=
  execNode o .webSearch (rewriterState o q)

/- ## Concrete oracles used to evaluate the development on closed inputs -/

/-- Benign oracle: the grading chain answers `yes`, no output smuggles a
`TOOL` marker. -/
def baseOracle : Oracle where
  assistantAnswer := fun _ => "a direct answer"
  gradeAnswer := fun _ _ => "yes"
  rewriteAnswer := fun _ => " a rewritten query "
  generateAnswer := fun _ _ => "a generated answer"
  retrieverTool := fun _ => "some retrieved context"
  webTool := fun _ => "some web context"

/-- Oracle whose direct-answer chain emits the marker substring `TOOL` inside
free text. -/
def toolLeakOracle : Oracle :=
  { baseOracle with assistantAnswer := fun _ => "a TOOL is an implement" }

/-- Oracle whose grading chain judges the documents not relevant. -/
def noGradeOracle : Oracle :=
  { baseOracle with gradeAnswer := fun _ _ => "definitely not" }

/-- Oracle whose grading chain returns the empty string. -/
def emptyGradeOracle : Oracle :=
  { baseOracle with gradeAnswer := fun _ _ => "" }

/- ## MCP tool server (`product_search_server.py`)

The retriever pipeline and the DuckDuckGo client are external collaborators;
they enter as an `Except`-valued outcome, the `error` case standing for the
Python exception caught by the `try` block, carrying `str(e)`. -/

/-- Document returned by the retriever; `metadata.get(key, "N/A")` is modelled
by `Option.getD` with default `N/A`. -/
structure RDoc where
  page_content : String
  product_title : Option String
  price : Option String
  rating : Option String
deriving DecidableEq

/-- Formatted block built by `format_docs` for one document. -/
def chunkOf (d : RDoc) : String :=
  "Title: " ++ d.product_title.getD "N/A" ++
  "\nPrice: " ++ d.price.getD "N/A" ++
  "\nRating: " ++ d.rating.getD "N/A" ++
  "\nReviews:\n" ++ pyStrip d.page_content

/-- Python `sep.join(chunks)`. -/
def joinSep (sep : String) : List String → String
  | [] => ""
  | [x] => x
  | x :: y :: xs => x ++ sep ++ joinSep sep (y :: xs)

/-- Helper `format_docs` of the tool server: empty string on no documents, else
the separator-joined formatted chunks. -/
def format_docs (docs : List RDoc) : String :=
  match docs with
  | [] => ""
  | _ => joinSep "\n\n---\n\n" (docs.map chunkOf)

/-- MCP tool `get_product_info`: formats the retrieval outcome, answers the
sentinel `No local results found.` when the formatted context strips to
nothing, and converts a raised exception into an error-prefixed string. -/
def get_product_info (r : Except String (List RDoc)) : String :=
  match r with
  | .ok docs =>
    let context := format_docs docs
    if pyStrip context = "" then "No local results found." else context
  | .error e => "Error retrieving product info: " ++ e

/-- MCP tool `web_search`: returns the DuckDuckGo text, converting a raised
exception into an error-prefixed string. -/
def web_search (r : Except String String) : String :=
  match r with
  | .ok s => s
  | .error e => "Error during web search: " ++ e

/- ## MCP client fallback (`client.py`) -/

/-- Observable outcome of the client `main`: how many times `web_search` was
invoked and which result the client reports last. -/
structure ClientReport where
  webCalls : Nat
  reported : String
deriving DecidableEq

/-- Fallback branch of `client.py`: when the retriever result is blank after
stripping or contains the sentinel, invoke `web_search` once and report its
result; otherwise keep the retriever result and perform no web search. -/
def fallback_step (retriever_result web_result : String) : ClientReport :=
  if (pyStrip retriever_result == "") || py_in "No local results found." retriever_result then
    ⟨1, web_result⟩
  else
    ⟨0, retriever_result⟩

/-- Client `main` for a query, given the two tools as oracles. -/
def client_main (retrieverTool webTool : String → String) (query : String) : ClientReport :=
  fallback_step (retrieverTool query) (webTool query)

/- ## ETL: ingestion (`data_ingestion.py`) and scraper output (`data_scrapper.py`)

The CSV byte-level tokenization (`csv.writer` quoting when saving, the pandas
field splitter when loading) is an external inverse pair, so a CSV file on
disk is modelled at the cell level as its header and its rows of string cells.
What `pd.read_csv` does on top of the raw cells is modelled: every cell equal
to one of the default `na_values` tokens becomes the missing value `NaN`, and
a column whose cells are all missing or numeric-looking is dtype-inferred, its
cells converted to numbers. The numeric tokenizer itself
(`maybe_convert_numeric` of the pandas C parser) is an external collaborator
and enters as an explicit `numParse` parameter. -/

/-- CSV file on disk at the cell level: header and rows of string cells. -/
structure Csv where
  header : List String
  rows : List (List String)
deriving DecidableEq

/-- Columns `_load_csv` requires (the set literal `expected_columns`). -/
def required_columns : List String :=
  ["product_id", "product_title", "rating", "total_reviews", "price", "top_reviews"]

/-- Value held by one cell of a pandas frame after `pd.read_csv`: a verbatim
string in an object-dtype column, a parsed number in a dtype-inferred column,
or the missing value `NaN`. -/
inductive PdCell
  | s : String → PdCell
  | num : ℚ → PdCell
  | nan : PdCell
deriving DecidableEq

/-- Default `na_values` tokens of `pd.read_csv`. -/
def default_na_values : List String :=
  ["", "#N/A", "#N/A N/A", "#NA", "-1.#IND", "-1.#QNAN", "-NaN", "-nan",
   "1.#IND", "1.#QNAN", "<NA>", "N/A", "NA", "NULL", "NaN", "None",
   "n/a", "nan", "null"]

/-- NA substitution of `pd.read_csv`: a raw cell in the default NA set reads
back as the missing value. -/
def naSubst (cell : String) : PdCell :=
  if default_na_values.contains cell then .nan else .s cell

/-- Whether one raw cell lets its column still be numeric: it is missing or
the numeric tokenizer accepts it. -/
def cell_is_na_or_numeric (numParse : String → Option ℚ) (cell : String) : Bool :=
  match naSubst cell with
  | .nan => true
  | .s str => (numParse str).isSome
  | .num _ => true

/-- Dtype inference of `pd.read_csv`, per column: a column is converted to a
numeric dtype exactly when every one of its cells is missing or accepted by
the numeric tokenizer. -/
def column_is_numeric (numParse : String → Option ℚ) (file : Csv) (j : Nat) : Bool :=
  file.rows.all fun r => cell_is_na_or_numeric numParse (r.getD j "")

/-- Conversion applied to the cells of a numeric-inferred column. -/
def convert_cell (numParse : String → Option ℚ) (c : PdCell) : PdCell :=
  match c with
  | .s str =>
    match numParse str with
    | some q => .num q
    | none => .s str
  | c => c

/-- Value of one cell after `pd.read_csv`: NA substitution always, numeric
conversion when the whole column is dtype-inferred. -/
def read_cell (numParse : String → Option ℚ) (file : Csv) (r : List String) (j : Nat) : PdCell :=
  let c := naSubst (r.getD j "")
  if column_is_numeric numParse file j then convert_cell numParse c else c

/-- Pandas frame produced by `pd.read_csv`. -/
structure PdFrame where
  header : List String
  rows : List (List PdCell)
deriving DecidableEq

/-- Model of `pd.read_csv` on a cell-level file: header kept verbatim, every
cell NA-substituted and numerically converted when its column is inferred. -/
def read_csv (numParse : String → Option ℚ) (file : Csv) : PdFrame :=
  { header := file.header
    rows := file.rows.map fun r =>
      (List.range file.header.length).map fun j => read_cell numParse file r j }

/-- Validation step of `_load_csv`: fail unless every required column is
present in the header of the frame just read. -/
def load_csv (df : PdFrame) : Except String PdFrame :=
  if required_columns.all (fun c => df.header.contains c) then .ok df
  else .error "CSV must contain the expected columns"

/-- Cell of a frame row under a column label (`row[col]` on a pandas row); the
default is never exercised on frames that passed `load_csv`. -/
def cellOfPd (header : List String) (row : List PdCell) (col : String) : PdCell :=
  match header.indexOf? col with
  | some i => row.getD i .nan
  | none => .nan

/-- LangChain `Document` as built by `transform_data`: the review text as
content, five metadata fields, each carrying whatever value the frame holds. -/
structure PDocument where
  page_content : PdCell
  product_id : PdCell
  product_title : PdCell
  rating : PdCell
  total_reviews : PdCell
  price : PdCell
deriving DecidableEq

/-- Transformation step `transform_data`: one document per frame row, content
from `top_reviews`, metadata from the five named columns. -/
def transform_data (df : PdFrame) : List PDocument :=
  df.rows.map fun row =>
    { page_content := cellOfPd df.header row "top_reviews"
      product_id := cellOfPd df.header row "product_id"
      product_title := cellOfPd df.header row "product_title"
      rating := cellOfPd df.header row "rating"
      total_reviews := cellOfPd df.header row "total_reviews"
      price := cellOfPd df.header row "price" }

/-- Ingestion front end: read the file, validate, then transform.
`transform_data` runs only on a frame `load_csv` accepted. -/
def ingest (numParse : String → Option ℚ) (file : Csv) : Except String (List PDocument) :=
  (load_csv (read_csv numParse file)).map transform_data

/-- One scraped product as assembled by `scrape_products` before saving. -/
structure ScrapedProduct where
  product_id : String
  product_title : String
  rating : String
  total_reviews : String
  price : String
  top_reviews : String
deriving DecidableEq

/-- Row list appended by `scrape_products` for one product:
`[id, title, rating, total_reviews, price, top_reviews]`. -/
def productRow (p : ScrapedProduct) : List String :=
  [p.product_id, p.product_title, p.rating, p.total_reviews, p.price, p.top_reviews]

/-- Scraper `save_to_csv`: write the fixed header row, then the data rows
verbatim. -/
def save_to_csv (data : List (List String)) : Csv :=
  { header := ["product_id", "product_title", "rating", "total_reviews", "price", "top_reviews"]
    rows := data }

/-- Document the round trip reproduces for a scraped product whose cells
survive reading verbatim. -/
def roundTripDoc (p : ScrapedProduct) : PDocument :=
  { page_content := .s p.top_reviews
    product_id := .s p.product_id
    product_title := .s p.product_title
    rating := .s p.rating
    total_reviews := .s p.total_reviews
    price := .s p.price }

/-- Scraped product carrying the scraper fallback value `N/A` in its rating
and review-count fields (`data_scrapper.py` emits exactly this on a missing
rating or review count). -/
def scrapedNA : ScrapedProduct :=
  { product_id := "itm123"
    product_title := "Widget"
    rating := "N/A"
    total_reviews := "N/A"
    price := "$299"
    top_reviews := "good product" }

/-- Scraped product none of whose cells is an NA token (and, under the trivial
tokenizer, none numeric-inferred). -/
def scrapedClean : ScrapedProduct :=
  { product_id := "itm757"
    product_title := "Apple iPhone 15"
    rating := "4.6 stars"
    total_reviews := "9,407 ratings"
    price := "78,999 rupees"
    top_reviews := "Worth every penny, just go for it" }

/- ## Retriever configuration (`retrieval.py`) -/

/-- Contents of the `retriever` section of the static config document; only
the numeric entries (such as `top_k`) matter here. -/
abbrev RetrieverSection := List (String × Nat)

/-- Static configuration document restricted to its numeric sections. -/
abbrev Config := List (String × RetrieverSection)

/-- Evaluation of the Python conditional expression
`config["retriever"]["top_k"] if "retriever" in config else 3`:
a missing `retriever` key yields the default `3`, but a present `retriever`
section without `top_k` raises a `KeyError`. -/
def top_k_of (config : Config) : Except String Nat :=
  match config.lookup "retriever" with
  | none => .ok 3
  | some sec =>
    match sec.lookup "top_k" with
    | some v => .ok v
    | none => .error "KeyError: top_k"

/-- Search parameters `load_retriever` hands to the vector store: the final
result count `k` comes from `top_k_of`, the candidate count `fetch_k` is the
literal `20` (the float-valued `lambda_mult` and `score_threshold` knobs are
outside the model). -/
structure SearchKwargs where
  k : Nat
  fetch_k : Nat
deriving DecidableEq

/-- Configuration-dependent part of `load_retriever`. -/
def load_retriever (config : Config) : Except String SearchKwargs :=
  (top_k_of config).map fun top_k => ⟨top_k, 20⟩

/- ## Evaluation wrappers (`ragas_eval.py`)

Each wrapper runs its whole body (sample construction plus the awaited metric
computation) inside a `try` block and returns the caught exception object on
failure; the body is abstracted as an `Except`-valued outcome, `error`
carrying the exception object. -/

/-- Wrapper `evaluate_context_precision`: a score on success, the exception
object itself as the return value on failure. -/
def evaluate_context_precision {E A : Type} (outcome : Except E A) : E ⊕ A :=
  match outcome with
  | .ok score => .inr score
  | .error e => .inl e

/-- Wrapper `evaluate_response_relevancy`: a score on success, the exception
object itself as the return value on failure. -/
def evaluate_response_relevancy {E A : Type} (outcome : Except E A) : E ⊕ A :=
  match outcome with
  | .ok score => .inr score
  | .error e => .inl e

/- ## Helper lemmas -/

/-- Content of the message just appended. -/
@[simp] theorem lastContent_concat (s : Messages) (m : Message) :
    lastContent (s ++ [m]) = m.content := by
  simp [lastContent, List.getLast?_concat]

/-- Content of the head message. -/
@[simp] theorem firstContent_cons (m : Message) (s : Messages) :
    firstContent (m :: s) = m.content := rfl

/-- Every edge of the workflow graph strictly decreases `nodeRank`. -/
theorem nextNode_rank_lt (o : Oracle) (n n' : Node) (s : Messages)
    (h : nextNode o n s = some n') : nodeRank n' < nodeRank n := by
  cases n with
  | assistant =>
    simp only [nextNode] at h
    split at h
    · injection h with h; subst h; decide
    · exact Option.noConfusion h
  | retriever =>
    simp only [nextNode] at h
    split at h
    · injection h with h; subst h; decide
    · injection h with h; subst h; decide
  | generator => exact Option.noConfusion h
  | rewriter => injection h with h; subst h; decide
  | webSearch => injection h with h; subst h; decide

/-- A run that has already reached `END` executes nothing. -/
theorem runFrom_none (o : Oracle) (fuel : Nat) (s : Messages) :
    runFrom o fuel none s = [] := by
  cases fuel <;> rfl

/-- Fuel at least the rank of the current node is enough: adding fuel does not
change the run, so the workflow terminates within a fixed number of steps. -/
theorem runFrom_fuel_independent (o : Oracle) :
    ∀ fuel k (n : Node) (s : Messages), nodeRank n ≤ fuel →
      runFrom o (fuel + k) (some n) s = runFrom o fuel (some n) s := by
  intro fuel
  induction fuel with
  | zero => intro k n s h; cases n <;> simp [nodeRank] at h
  | succ f ih =>
    intro k n s h
    have hadd : f + 1 + k = (f + k) + 1 := by omega
    rw [hadd]
    simp only [runFrom]
    congr 1
    cases hnext : nextNode o n (s ++ [nodeMsg o n s]) with
    | none => rw [runFrom_none, runFrom_none]
    | some n' =>
      have hlt := nextNode_rank_lt o n n' _ hnext
      exact ih k n' _ (by omega)

/-- A run executes at most as many nodes as it has fuel. -/
theorem runFrom_length_le (o : Oracle) :
    ∀ fuel (c : Option Node) (s : Messages), (runFrom o fuel c s).length ≤ fuel := by
  intro fuel
  induction fuel with
  | zero => intro c s; simp [runFrom]
  | succ f ih =>
    intro c s
    cases c with
    | none => simp [runFrom]
    | some n =>
      simp only [runFrom, List.length_cons]
      exact Nat.succ_le_succ (ih _ _)

/-- First snapshot of a run is its initial state. -/
theorem statesFrom_head (o : Oracle) (fuel : Nat) (c : Option Node) (s : Messages) :
    (statesFrom o fuel c s).head? = some s := by
  cases fuel <;> cases c <;> rfl

/-- The head message is preserved along every snapshot of a run. -/
theorem statesFrom_first (o : Oracle) :
    ∀ fuel (c : Option Node) (s : Messages), s ≠ [] →
      ∀ t ∈ statesFrom o fuel c s, t.head? = s.head? := by
  intro fuel
  induction fuel with
  | zero =>
    intro c s hs t ht
    simp only [statesFrom, List.mem_singleton] at ht
    subst ht; rfl
  | succ f ih =>
    intro c s hs t ht
    cases c with
    | none =>
      simp only [statesFrom, List.mem_singleton] at ht
      subst ht; rfl
    | some n =>
      simp only [statesFrom, List.mem_cons] at ht
      rcases ht with rfl | ht
      · rfl
      · have h1 : execNode o n s ≠ [] := by simp [execNode]
        have h2 : (execNode o n s).head? = s.head? := by
          cases s with
          | nil => exact absurd rfl hs
          | cons a as => simp [execNode]
        rw [← h2]
        exact ih _ _ h1 t ht

/-- Consecutive snapshots differ by exactly one appended message. -/
theorem statesFrom_chain (o : Oracle) :
    ∀ fuel (c : Option Node) (s : Messages),
      List.Chain' (fun a b => ∃ m, b = a ++ [m]) (statesFrom o fuel c s) := by
  intro fuel
  induction fuel with
  | zero => intro c s; simp [statesFrom]
  | succ f ih =>
    intro c s
    cases c with
    | none => simp [statesFrom]
    | some n =>
      simp only [statesFrom]
      refine (List.chain'_cons').2 ⟨?_, ih _ _⟩
      intro y hy
      rw [statesFrom_head] at hy
      simp only [Option.mem_def, Option.some.injEq] at hy
      subst hy
      exact ⟨nodeMsg o n s, rfl⟩

/-- Unfolding of a run step at fuel 5. -/
theorem runFrom5 (o : Oracle) (n : Node) (s : Messages) :
    runFrom o 5 (some n) s =
      (n, nodeMsg o n s) :: runFrom o 4 (nextNode o n (execNode o n s)) (execNode o n s) := rfl

/-- Unfolding of a run step at fuel 4. -/
theorem runFrom4 (o : Oracle) (n : Node) (s : Messages) :
    runFrom o 4 (some n) s =
      (n, nodeMsg o n s) :: runFrom o 3 (nextNode o n (execNode o n s)) (execNode o n s) := rfl

/-- Unfolding of a run step at fuel 3. -/
theorem runFrom3 (o : Oracle) (n : Node) (s : Messages) :
    runFrom o 3 (some n) s =
      (n, nodeMsg o n s) :: runFrom o 2 (nextNode o n (execNode o n s)) (execNode o n s) := rfl

/-- Unfolding of a run step at fuel 2. -/
theorem runFrom2 (o : Oracle) (n : Node) (s : Messages) :
    runFrom o 2 (some n) s =
      (n, nodeMsg o n s) :: runFrom o 1 (nextNode o n (execNode o n s)) (execNode o n s) := rfl

/-- Unfolding of a run step at fuel 1. -/
theorem runFrom1 (o : Oracle) (n : Node) (s : Messages) :
    runFrom o 1 (some n) s =
      (n, nodeMsg o n s) :: runFrom o 0 (nextNode o n (execNode o n s)) (execNode o n s) := rfl

/-- With a domain keyword in the query, `Assistant` appends the routing sentinel. -/
theorem ai_assistant_keyword (o : Oracle) (q : String) (hk : hasDomainKeyword q = true) :
    nodeMsg o .assistant [⟨q⟩] = ⟨"TOOL: retriever"⟩ := by
  simp [nodeMsg, ai_assistant, lastContent, hk]

/-- Without a domain keyword, `Assistant` appends the direct LLM answer. -/
theorem ai_assistant_direct (o : Oracle) (q : String) (hk : hasDomainKeyword q = false) :
    nodeMsg o .assistant [⟨q⟩] = ⟨o.assistantAnswer q⟩ := by
  simp [nodeMsg, ai_assistant, lastContent, hk]

/-- The grading predicate can only answer one of its two labels. -/
theorem grade_documents_dichotomy (o : Oracle) (s : Messages) :
    grade_documents o s = "generator" ∨ grade_documents o s = "rewriter" := by
  simp only [grade_documents]
  split
  · exact Or.inl rfl
  · exact Or.inr rfl

/-- Shape of a run that routes to the Retriever and grades the context relevant. -/
theorem runTrace_relevant (o : Oracle) (q : String)
    (hk : hasDomainKeyword q = true)
    (hg : grade_documents o (retrieverState o q) = "generator") :
    runTrace o q =
      [(.assistant, nodeMsg o .assistant [⟨q⟩]),
       (.retriever, nodeMsg o .retriever (assistantState o q)),
       (.generator, nodeMsg o .generator (retrieverState o q))] := by
  unfold retrieverState assistantState at hg ⊢
  have h1 : nextNode o .assistant (execNode o .assistant [⟨q⟩]) = some .retriever := by
    show nextNode o .assistant ([⟨q⟩] ++ [nodeMsg o .assistant [⟨q⟩]]) = some .retriever
    rw [ai_assistant_keyword o q hk]
    rfl
  have h2 : nextNode o .retriever (execNode o .retriever (execNode o .assistant [⟨q⟩])) =
      some .generator := by
    simp only [nextNode, hg]
    rfl
  have hgen : ∀ s, nextNode o .generator s = none := fun _ => rfl
  show runFrom o 5 (some .assistant) [⟨q⟩] = _
  rw [runFrom5, h1, runFrom4, h2, runFrom3, hgen, runFrom_none]

/-- Shape of a run that routes to the Retriever and grades the context not
relevant: the rewrite path, visiting each remaining node exactly once. -/
theorem runTrace_rewrite (o : Oracle) (q : String)
    (hk : hasDomainKeyword q = true)
    (hg : grade_documents o (retrieverState o q) = "rewriter") :
    runTrace o q =
      [(.assistant, nodeMsg o .assistant [⟨q⟩]),
       (.retriever, nodeMsg o .retriever (assistantState o q)),
       (.rewriter, nodeMsg o .rewriter (retrieverState o q)),
       (.webSearch, nodeMsg o .webSearch (rewriterState o q)),
       (.generator, nodeMsg o .generator (webSearchState o q))] := by
  unfold retrieverState assistantState at hg
  unfold webSearchState rewriterState retrieverState assistantState
  have h1 : nextNode o .assistant (execNode o .assistant [⟨q⟩]) = some .retriever := by
    show nextNode o .assistant ([⟨q⟩] ++ [nodeMsg o .assistant [⟨q⟩]]) = some .retriever
    rw [ai_assistant_keyword o q hk]
    rfl
  have h2 : nextNode o .retriever (execNode o .retriever (execNode o .assistant [⟨q⟩])) =
      some .rewriter := by
    simp only [nextNode, hg]
    rfl
  have hrew : ∀ s, nextNode o .rewriter s = some .webSearch := fun _ => rfl
  have hweb : ∀ s, nextNode o .webSearch s = some .generator := fun _ => rfl
  have hgen : ∀ s, nextNode o .generator s = none := fun _ => rfl
  show runFrom o 5 (some .assistant) [⟨q⟩] = _
  rw [runFrom5, h1, runFrom4, h2, runFrom3, hrew, runFrom2, hweb, runFrom1, hgen, runFrom_none]

/-- Shape of a run with no domain keyword whose direct answer does not contain
the `TOOL` marker: the Assistant alone runs. -/
theorem runTrace_direct (o : Oracle) (q : String)
    (hk : hasDomainKeyword q = false)
    (hleak : py_in "TOOL" (o.assistantAnswer q) = false) :
    runTrace o q = [(.assistant, ⟨o.assistantAnswer q⟩)] := by
  have hm := ai_assistant_direct o q hk
  have h1 : nextNode o .assistant (execNode o .assistant [⟨q⟩]) = none := by
    show nextNode o .assistant ([⟨q⟩] ++ [nodeMsg o .assistant [⟨q⟩]]) = none
    rw [hm]
    show (if py_in "TOOL" (o.assistantAnswer q) = true then some Node.retriever else none) = none
    rw [hleak]
    rfl
  show runFrom o 5 (some .assistant) [⟨q⟩] = _
  rw [runFrom5, h1, runFrom_none, hm]

/-- C1 (amended). A query whose lowercasing contains a domain keyword makes the
Assistant append the routing sentinel instead of a direct answer, the run
proceeds from Assistant to Retriever, and the final message is produced by the
Generator. A query with no domain keyword makes the Assistant append its
directly generated answer, and provided that answer does not contain the
substring `TOOL`, the run terminates immediately after Assistant with the
direct answer as the final message and with no tool invocation performed. -/
theorem assistant_routing (o : Oracle) (q : String) :
    (hasDomainKeyword q = true →
      nodeMsg o .assistant [⟨q⟩] = ⟨"TOOL: retriever"⟩ ∧
      (∃ rest, visited o q = Node.assistant :: Node.retriever :: rest) ∧
      (visited o q).getLast? = some Node.generator) ∧
    (hasDomainKeyword q = false →
      nodeMsg o .assistant [⟨q⟩] = ⟨o.assistantAnswer q⟩ ∧
      (py_in "TOOL" (o.assistantAnswer q) = false →
        visited o q = [Node.assistant] ∧
        finalMessages o q = [⟨q⟩, ⟨o.assistantAnswer q⟩] ∧
        toolCalls o q = 0)) := by
  constructor
  · intro hk
    refine ⟨ai_assistant_keyword o q hk, ?_⟩
    rcases grade_documents_dichotomy o (retrieverState o q) with hg | hg
    · rw [visited, runTrace_relevant o q hk hg]
      exact ⟨⟨[Node.generator], rfl⟩, rfl⟩
    · rw [visited, runTrace_rewrite o q hk hg]
      exact ⟨⟨[Node.rewriter, Node.webSearch, Node.generator], rfl⟩, rfl⟩
  · intro hk
    refine ⟨ai_assistant_direct o q hk, ?_⟩
    intro hleak
    have ht := runTrace_direct o q hk hleak
    refine ⟨?_, ?_, ?_⟩
    · rw [visited, ht]; rfl
    · rw [finalMessages, ht]; rfl
    · rw [toolCalls, visited, ht]; rfl

/-- C1 witness: on the concrete query `what is the price?` with the benign
oracle, the Assistant appends the routing sentinel. -/
theorem assistant_routing_witness :
    nodeMsg baseOracle .assistant [⟨"what is the price?"⟩] = ⟨"TOOL: retriever"⟩ :=
  ((assistant_routing baseOracle "what is the price?").1 (by decide)).1

/-- C1 counterexample: the claim as stated fails when the direct LLM answer to
a keyword-free query happens to contain `TOOL` — the concrete query
`hello there` under `toolLeakOracle` has no domain keyword, yet the run does
not terminate after Assistant and performs a tool invocation. -/
theorem assistant_routing_counterexample :
    hasDomainKeyword "hello there" = false ∧
    visited toolLeakOracle "hello there" ≠ [Node.assistant] ∧
    toolCalls toolLeakOracle "hello there" ≠ 0 := by decide

/-- C2. The grading predicate answers `generator` exactly when the grading LLM
output contains `yes` case-insensitively and `rewriter` for every other output
(the empty output included); as a conditional edge it only selects the
successor node and neither mutates the message sequence nor appends to it. -/
theorem grader_decision (o : Oracle) (s : Messages) (q d : String)
    (hq : s.head? = some ⟨q⟩) (hd : s.getLast? = some ⟨d⟩) :
    (grade_documents o s = "generator" ↔
      py_in "yes" (pyLower (o.gradeAnswer q d)) = true) ∧
    (grade_documents o s = "rewriter" ↔
      py_in "yes" (pyLower (o.gradeAnswer q d)) = false) ∧
    nextNode o Node.retriever s =
      some (if grade_documents o s = "generator" then Node.generator else Node.rewriter) := by
  have h1 : firstContent s = q := by unfold firstContent; rw [hq]; rfl
  have h2 : lastContent s = d := by unfold lastContent; rw [hd]; rfl
  have hsplit : grade_documents o s =
      if py_in "yes" (pyLower (o.gradeAnswer q d)) then "generator" else "rewriter" := by
    unfold grade_documents
    rw [h1, h2]
  refine ⟨?_, ?_, ?_⟩
  · rw [hsplit]
    cases hpy : py_in "yes" (pyLower (o.gradeAnswer q d)) <;> simp [hpy]
  · rw [hsplit]
    cases hpy : py_in "yes" (pyLower (o.gradeAnswer q d)) <;> simp [hpy]
  · by_cases hgg : grade_documents o s = "generator"
    · simp only [nextNode, hgg, if_pos]
    · rw [show nextNode o Node.retriever s =
          (if grade_documents o s = "generator" then some Node.generator
           else some Node.rewriter) from rfl]
      rw [if_neg hgg, if_neg hgg]


/-- C2 witness: with an empty grading output on the concrete two-message state,
the decision is `rewriter`. -/
theorem grader_decision_witness :
    grade_documents emptyGradeOracle [⟨"q"⟩, ⟨"d"⟩] = "rewriter" :=
  (grader_decision emptyGradeOracle [⟨"q"⟩, ⟨"d"⟩] "q" "d" rfl rfl).2.1.mpr (by decide)

/-- C3. Every run stops within five node executions (extra fuel never changes
the run, so the graph has no cycle and terminates), and a run graded not
relevant traverses exactly
Assistant, Retriever, Rewriter, WebSearch, Generator and never re-enters the
Retriever (hence its grading edge runs exactly once). -/
theorem workflow_termination (o : Oracle) (q : String) :
    ((runTrace o q).length ≤ 5 ∧
      ∀ k, runFrom o (5 + k) (some Node.assistant) [⟨q⟩] = runTrace o q) ∧
    (hasDomainKeyword q = true →
      grade_documents o (retrieverState o q) = "rewriter" →
      visited o q =
        [Node.assistant, Node.retriever, Node.rewriter, Node.webSearch, Node.generator] ∧
      (visited o q).count Node.retriever = 1) := by
  refine ⟨⟨runFrom_length_le o 5 _ _, ?_⟩, ?_⟩
  · intro k
    exact runFrom_fuel_independent o 5 k Node.assistant [⟨q⟩] (by decide)
  · intro hk hg
    rw [visited, runTrace_rewrite o q hk hg]
    exact ⟨rfl, rfl⟩

/-- C3 witness: with a grader that judges not relevant and the concrete query
`what is the price?`, the run traverses the five nodes in order and visits the
Retriever exactly once. -/
theorem workflow_termination_witness :
    visited noGradeOracle "what is the price?" =
      [Node.assistant, Node.retriever, Node.rewriter, Node.webSearch, Node.generator] ∧
    (visited noGradeOracle "what is the price?").count Node.retriever = 1 :=
  (workflow_termination noGradeOracle "what is the price?").2 (by decide) (by decide)

/-- C4. Along every run: node execution appends exactly the one message the
node returns, every reachable state snapshot keeps the original query as its
first message, and consecutive snapshots differ by exactly one appended
message (so the last message is always the most recently produced content). -/
theorem state_append_invariant (o : Oracle) (q : String) :
    (∀ n s, execNode o n s = s ++ [nodeMsg o n s]) ∧
    (∀ t ∈ runStates o q, t.head? = some (⟨q⟩ : Message)) ∧
    List.Chain' (fun a b => ∃ m, b = a ++ [m]) (runStates o q) := by
  refine ⟨fun n s => rfl, ?_, statesFrom_chain o 5 _ _⟩
  intro t ht
  have h := statesFrom_first o 5 (some Node.assistant) [⟨q⟩] (by simp) t ht
  simpa using h

/-- C4 witness: on the concrete run for `hi`, the initial snapshot keeps the
query as head, and executing the Assistant appends exactly one message. -/
theorem state_append_invariant_witness :
    (([⟨"hi"⟩] : Messages)).head? = some (⟨"hi"⟩ : Message) ∧
    execNode baseOracle Node.assistant [⟨"hi"⟩] =
      [⟨"hi"⟩] ++ [nodeMsg baseOracle Node.assistant [⟨"hi"⟩]] :=
  ⟨(state_append_invariant baseOracle "hi").2.1 [⟨"hi"⟩] (by decide),
   (state_append_invariant baseOracle "hi").1 Node.assistant [⟨"hi"⟩]⟩

/-- A string starting with `Title: ` never equals the no-results sentinel. -/
theorem title_ne_sentinel (t : String) : "Title: " ++ t ≠ "No local results found." := by
  intro h
  have hd := congrArg String.data h
  rw [String.data_append] at hd
  have h1 : ("Title: ".data ++ t.data).head? = some 'T' := rfl
  rw [hd] at h1
  exact absurd h1 (by decide)

/-- The formatted context of a non-empty document list starts with `Title: `. -/
theorem format_docs_startsTitle (d : RDoc) (ds : List RDoc) :
    ∃ t, format_docs (d :: ds) = "Title: " ++ t := by
  obtain ⟨t0, ht0⟩ : ∃ t0, chunkOf d = "Title: " ++ t0 := ⟨_, rfl⟩
  cases ds with
  | nil => exact ⟨t0, ht0⟩
  | cons d' ds' =>
    refine ⟨t0 ++ "\n\n---\n\n" ++ joinSep "\n\n---\n\n" (chunkOf d' :: ds'.map chunkOf), ?_⟩
    show chunkOf d ++ "\n\n---\n\n" ++ joinSep "\n\n---\n\n" (chunkOf d' :: ds'.map chunkOf) =
        "Title: " ++ (t0 ++ "\n\n---\n\n" ++ joinSep "\n\n---\n\n" (chunkOf d' :: ds'.map chunkOf))
    rw [ht0]
    simp [String.append_assoc]

/-- C5. The tool `get_product_info` answers the literal sentinel exactly when
the formatted retrieval context strips to the empty string, and both tools
convert an internal exception into a descriptive error-prefixed string result
instead of letting it cross the tool boundary. -/
theorem tool_error_contract (docs : List RDoc) (e : String) :
    (get_product_info (Except.ok docs) = "No local results found." ↔
      pyStrip (format_docs docs) = "") ∧
    get_product_info (Except.error e) = "Error retrieving product info: " ++ e ∧
    web_search (Except.error e) = "Error during web search: " ++ e ∧
    (∀ s, web_search (Except.ok s) = s) := by
  refine ⟨?_, rfl, rfl, fun s => rfl⟩
  show (if pyStrip (format_docs docs) = "" then "No local results found."
        else format_docs docs) = "No local results found." ↔
      pyStrip (format_docs docs) = ""
  by_cases hs : pyStrip (format_docs docs) = ""
  · simp [hs]
  · rw [if_neg hs]
    constructor
    · intro hcon
      cases docs with
      | nil => exact absurd rfl hs
      | cons d ds =>
        obtain ⟨t, ht⟩ := format_docs_startsTitle d ds
        rw [ht] at hcon
        exact absurd hcon (title_ne_sentinel t)
    · intro h
      exact absurd h hs

/-- C6. A CSV missing any required column is rejected by the loading step —
for every numeric tokenizer the pandas read may use — so the transformation
never runs and no document is emitted. -/
theorem ingestion_missing_column (numParse : String → Option ℚ) (file : Csv) (c : String)
    (hc : c ∈ required_columns) (hm : file.header.contains c = false) :
    (∃ e, ingest numParse file = Except.error e) ∧
    ∀ docs, ingest numParse file ≠ Except.ok docs := by
  have hall : ¬ required_columns.all
      (fun col => (read_csv numParse file).header.contains col) = true := by
    intro hall
    have hct : file.header.contains c = true := List.all_eq_true.mp hall c hc
    rw [hm] at hct
    exact absurd hct (by decide)
  have hload : load_csv (read_csv numParse file) =
      Except.error "CSV must contain the expected columns" := by
    unfold load_csv
    rw [if_neg hall]
  refine ⟨⟨"CSV must contain the expected columns", ?_⟩, ?_⟩
  · unfold ingest
    rw [hload]
    rfl
  · intro docs h
    unfold ingest at h
    rw [hload] at h
    exact Except.noConfusion h

/-- C6 witness: a file carrying only the `product_id` column is rejected and
yields no documents. -/
theorem ingestion_missing_column_witness :
    ingest (fun _ => none) ⟨["product_id"], []⟩ ≠ Except.ok [] :=
  (ingestion_missing_column (fun _ => none) ⟨["product_id"], []⟩ "rating"
    (by decide) (by decide)).2 []

/-- A cell that is no NA token and that the tokenizer rejects reads back
verbatim once its column is known not to be dtype-inferred. -/
theorem read_cell_verbatim (numParse : String → Option ℚ) (file : Csv)
    (r : List String) (j : Nat)
    (hcol : column_is_numeric numParse file j = false)
    (hna : default_na_values.contains (r.getD j "") = false) :
    read_cell numParse file r j = PdCell.s (r.getD j "") := by
  unfold read_cell
  rw [hcol]
  unfold naSubst
  rw [hna]
  rfl

/-- A cell of a scraped row is one of the six written fields. -/
theorem productRow_getD_mem (p : ScrapedProduct) (j : Nat) (hj : j < 6) :
    (productRow p).getD j "" ∈ productRow p := by
  interval_cases j <;> simp [productRow]

/-- C7 (amended). For every numeric tokenizer and every list of scraped rows
all of whose cells are outside the pandas default NA set and rejected by the
tokenizer, writing with `save_to_csv` and reading back through the ingestion
loader reproduces the five metadata values and the review text verbatim as
string cells. -/
theorem save_load_roundtrip (numParse : String → Option ℚ) (ps : List ScrapedProduct)
    (hcells : ∀ p ∈ ps, ∀ cell ∈ productRow p,
      default_na_values.contains cell = false ∧ numParse cell = none) :
    ingest numParse (save_to_csv (ps.map productRow)) =
      Except.ok (ps.map roundTripDoc) := by
  cases ps with
  | nil => rfl
  | cons p0 ps' =>
    have hcol : ∀ j, j < 6 →
        column_is_numeric numParse (save_to_csv ((p0 :: ps').map productRow)) j = false := by
      intro j hj
      have hmem := productRow_getD_mem p0 j hj
      obtain ⟨h1, h2⟩ := hcells p0 (List.mem_cons_self p0 ps') _ hmem
      have hhead : cell_is_na_or_numeric numParse ((productRow p0).getD j "") = false := by
        unfold cell_is_na_or_numeric naSubst
        rw [h1]
        show (numParse ((productRow p0).getD j "")).isSome = false
        rw [h2]
        rfl
      unfold column_is_numeric save_to_csv
      simp only [List.map_cons, List.all_cons, hhead, Bool.false_and]
    have hcell : ∀ p ∈ p0 :: ps', ∀ j, j < 6 →
        read_cell numParse (save_to_csv ((p0 :: ps').map productRow)) (productRow p) j =
          PdCell.s ((productRow p).getD j "") := by
      intro p hp j hj
      obtain ⟨h1, _⟩ := hcells p hp _ (productRow_getD_mem p j hj)
      exact read_cell_verbatim numParse _ _ j (hcol j hj) h1
    have hcond : (required_columns.all fun c =>
        (read_csv numParse (save_to_csv ((p0 :: ps').map productRow))).header.contains c) =
        true := rfl
    have hload : load_csv (read_csv numParse (save_to_csv ((p0 :: ps').map productRow))) =
        Except.ok (read_csv numParse (save_to_csv ((p0 :: ps').map productRow))) := by
      unfold load_csv
      rw [if_pos hcond]
    unfold ingest
    rw [hload]
    show Except.ok (transform_data
        (read_csv numParse (save_to_csv ((p0 :: ps').map productRow)))) = _
    congr 1
    unfold transform_data read_csv
    rw [show (save_to_csv ((p0 :: ps').map productRow)).rows =
          (p0 :: ps').map productRow from rfl,
        show (save_to_csv ((p0 :: ps').map productRow)).header.length = 6 from rfl]
    simp only [List.map_map]
    apply List.map_congr_left
    intro p hp
    have e0 := hcell p hp 0 (by norm_num)
    have e1 := hcell p hp 1 (by norm_num)
    have e2 := hcell p hp 2 (by norm_num)
    have e3 := hcell p hp 3 (by norm_num)
    have e4 := hcell p hp 4 (by norm_num)
    have e5 := hcell p hp 5 (by norm_num)
    simp only [Function.comp_apply]
    rw [show List.map (fun j => read_cell numParse (save_to_csv ((p0 :: ps').map productRow))
          (productRow p) j) (List.range 6) =
        [read_cell numParse (save_to_csv ((p0 :: ps').map productRow)) (productRow p) 0,
         read_cell numParse (save_to_csv ((p0 :: ps').map productRow)) (productRow p) 1,
         read_cell numParse (save_to_csv ((p0 :: ps').map productRow)) (productRow p) 2,
         read_cell numParse (save_to_csv ((p0 :: ps').map productRow)) (productRow p) 3,
         read_cell numParse (save_to_csv ((p0 :: ps').map productRow)) (productRow p) 4,
         read_cell numParse (save_to_csv ((p0 :: ps').map productRow)) (productRow p) 5] from rfl]
    rw [e0, e1, e2, e3, e4, e5]
    rfl

/-- C7 counterexample: the claim as stated fails on the concrete scraped row
`scrapedNA`, whose rating and review count carry the scraper fallback value
`N/A` — the pandas NA substitution (independent of the numeric tokenizer)
reads both back as the missing value `NaN`, not as the written string. -/
theorem save_load_roundtrip_counterexample :
    ingest (fun _ => none) (save_to_csv [productRow scrapedNA]) =
      Except.ok [{ page_content := PdCell.s "good product"
                   product_id := PdCell.s "itm123"
                   product_title := PdCell.s "Widget"
                   rating := PdCell.nan
                   total_reviews := PdCell.nan
                   price := PdCell.s "$299" }] ∧
    PdCell.nan ≠ PdCell.s "N/A" ∧
    scrapedNA.rating = "N/A" :=
  ⟨rfl, by decide, rfl⟩

/-- C7 witness: the amended round trip at a concrete clean row. -/
theorem save_load_roundtrip_witness :
    ingest (fun _ => none) (save_to_csv ([scrapedClean].map productRow)) =
      Except.ok ([scrapedClean].map roundTripDoc) :=
  save_load_roundtrip (fun _ => none) [scrapedClean] (by decide)

/-- C8. The client falls back to exactly one web-search call, reporting its
result, precisely when the retriever result strips to nothing or contains the
sentinel; a non-blank, sentinel-free retriever result is reported as is with
no web search. In particular the query `Dell Laptop?` with an empty retriever
result triggers exactly one web search and reports its result. -/
theorem client_fallback (r w : String) :
    ((pyStrip r = "" ∨ py_in "No local results found." r = true) →
      fallback_step r w = ⟨1, w⟩) ∧
    (pyStrip r ≠ "" → py_in "No local results found." r = false →
      fallback_step r w = ⟨0, r⟩) ∧
    (∀ webTool : String → String,
      client_main (fun _ => "") webTool "Dell Laptop?" = ⟨1, webTool "Dell Laptop?"⟩) := by
  refine ⟨?_, ?_, ?_⟩
  · intro h
    have hc : ((pyStrip r == "") || py_in "No local results found." r) = true := by
      rcases h with h | h <;> simp [h]
    unfold fallback_step
    rw [hc]
    rfl
  · intro h1 h2
    have hc : ((pyStrip r == "") || py_in "No local results found." r) = false := by
      simp [h1, h2]
    unfold fallback_step
    rw [hc]
    rfl
  · intro webTool
    unfold client_main fallback_step
    rw [show ((pyStrip ((fun _ => "") "Dell Laptop?") == "") ||
          py_in "No local results found." ((fun _ => "") "Dell Laptop?")) = true from by decide]
    rfl

/-- C8 witness: an empty retriever result triggers the single web-search call. -/
theorem client_fallback_witness : fallback_step "" "w" = ⟨1, "w"⟩ :=
  (client_fallback "" "w").1 (Or.inl (by decide))

/-- C9 counterexample: in a configuration whose `retriever` section is present
but lacks `top_k`, the value `retriever.top_k` is absent and yet the lookup
does not produce the default `3` — it raises a `KeyError`. -/
theorem topk_missing_counterexample :
    top_k_of [("retriever", [])] ≠ Except.ok 3 ∧
    top_k_of [("retriever", [])] = Except.error "KeyError: top_k" := by
  constructor
  · intro h
    rw [show top_k_of [("retriever", [])] = Except.error "KeyError: top_k" from rfl] at h
    exact Except.noConfusion h
  · rfl

/-- C9 (amended). `load_retriever` takes the final result count `k` from the
configured `retriever.top_k` whenever the `retriever` section carries it,
defaults to `3` exactly when the whole `retriever` section is absent, and
fails with a `KeyError` when the section is present without `top_k`. -/
theorem topk_amended (config : Config) :
    (config.lookup "retriever" = none → load_retriever config = Except.ok ⟨3, 20⟩) ∧
    (∀ sec v, config.lookup "retriever" = some sec → sec.lookup "top_k" = some v →
      load_retriever config = Except.ok ⟨v, 20⟩) ∧
    (∀ sec, config.lookup "retriever" = some sec → sec.lookup "top_k" = none →
      load_retriever config = Except.error "KeyError: top_k") := by
  refine ⟨?_, ?_, ?_⟩
  · intro h
    simp [load_retriever, top_k_of, Except.map, h]
  · intro sec v h1 h2
    simp [load_retriever, top_k_of, Except.map, h1, h2]
  · intro sec h1 h2
    simp [load_retriever, top_k_of, Except.map, h1, h2]

/-- C9 witness: a configured `retriever.top_k` of `7` is used as `k`. -/
theorem topk_amended_witness :
    load_retriever [("retriever", [("top_k", 7)])] = Except.ok ⟨7, 20⟩ :=
  (topk_amended [("retriever", [("top_k", 7)])]).2.1 [("top_k", 7)] 7 rfl rfl

/-- C10. The evaluation wrappers are total: a failing metric computation makes
them return the caught exception object itself, a succeeding one makes them
return its score. -/
theorem eval_wrappers_never_raise {E A : Type} (outcome : Except E A) :
    (∀ e, outcome = Except.error e →
      evaluate_context_precision outcome = Sum.inl e ∧
      evaluate_response_relevancy outcome = Sum.inl e) ∧
    (∀ v, outcome = Except.ok v →
      evaluate_context_precision outcome = Sum.inr v ∧
      evaluate_response_relevancy outcome = Sum.inr v) := by
  refine ⟨?_, ?_⟩ <;> rintro x rfl <;> exact ⟨rfl, rfl⟩

/-- C10 witness: a concrete failing outcome is returned as the exception value. -/
theorem eval_wrappers_never_raise_witness :
    evaluate_context_precision (Except.error "boom" : Except String Nat) = Sum.inl "boom" :=
  ((eval_wrappers_never_raise (Except.error "boom" : Except String Nat)).1 "boom" rfl).1
